import Mathlib

/-!
Verification development for the `indexeddb-cache` repository.

The embedding covers:
* `JSDate` — a model of the JavaScript `Date` builtin used by the code:
  a date is a count of milliseconds since the Unix epoch, and the
  calendar accessors (`getFullYear`, `getMonth`, `getDate`) and setters
  (`setFullYear`, `setMonth`, `setDate`) are defined through the proleptic
  Gregorian civil calendar (Howard Hinnant's `days_from_civil` /
  `civil_from_days` algorithms, which JavaScript engines implement).
  Local time is modelled with a fixed UTC offset of zero and no DST,
  so a calendar day is exactly 86400000 ms.
* `DateHelper.dateAdd` — from `src/helpers/DateHelper.ts`.
* `CacheService` — from the `CacheService` source file: `init`, `get`,
  `put`, `delete`, `flush`, `createPersistable`, `log`.  The asynchronous
  callback style of the source is embedded as pure state passing: each
  operation takes the service state, the current clock, and the outcome the
  storage engine reports for the issued request, and returns the settled
  promise value (`Except` for resolve/reject, with the first settlement
  winning, as JavaScript promises do), the new service state, the console
  output, and the list of storage requests issued.
-/

namespace ICache

namespace JSDate

/-- Hinnant's `days_from_civil`, generalised the way the JavaScript `Date`
setters normalise their arguments: `m0` is a 0-based month index that may be
any integer (overflow moves the year, by floor division), and `d` is a
1-based day of the month that may be any integer (the day count is linear in
`d`, which is exactly the normalisation `setDate` performs). Returns the
number of days since the Unix epoch. -/
def daysFromCivil (y0 : Int) (m0 : Int) (d : Int) : Int :=
  let y1 : Int := y0 + m0 / 12
  let m : Int := m0 % 12 + 1
  let y : Int := if m ≤ 2 then y1 - 1 else y1
  let era : Int := y / 400
  let yoe : Int := y - era * 400
  let mp : Int := if m > 2 then m - 3 else m + 9
  let doy : Int := (153 * mp + 2) / 5 + d - 1
  let doe : Int := yoe * 365 + yoe / 4 - yoe / 100 + doy
  era * 146097 + doe - 719468

/-- Hinnant's `civil_from_days`: from a count of days since the Unix epoch
to `(year, month, day)` with the month 1-based in `1..12`. -/
def civilFromDays (z0 : Int) : Int × Int × Int :=
  let z : Int := z0 + 719468
  let era : Int := z / 146097
  let doe : Int := z - era * 146097
  let yoe : Int := (doe - doe / 1460 + doe / 36524 - doe / 146096) / 365
  let y : Int := yoe + era * 400
  let doy : Int := doe - (365 * yoe + yoe / 4 - yoe / 100)
  let mp : Int := (5 * doy + 2) / 153
  let d : Int := doy - (153 * mp + 2) / 5 + 1
  let m : Int := if mp < 10 then mp + 3 else mp - 9
  (if m ≤ 2 then y + 1 else y, m, d)

/-- Analysis helper for `civilFromDays`: the adjusted day count whose
division by 365 yields the year of the era.  Subtracting one day per
complete 4-year block, adding one back per century and removing one for the
400-year leap day makes every year of the era exactly 365 adjusted days
long. -/
def yearAdj (doe : Int) : Int := doe - doe / 1460 + doe / 36524 - doe / 146096

/-- Analysis helper: the first day of the era belonging to year-of-era `y`
(for `y` in `0..399`), counting the leap days of the preceding years. -/
def yoeStart (y : Int) : Int := 365 * y + y / 4 - y / 100

end JSDate

/-- A JavaScript `Date`: milliseconds since the Unix epoch. -/
structure JSDate where
  ms : Int
  deriving Repr, DecidableEq

namespace JSDate

/-- Milliseconds in one civil day (the model has no DST). -/
def msPerDay : Int := 86400000

/-- `Date.prototype.getTime`. -/
def getTime (t : JSDate) : Int := t.ms

/-- `Date.prototype.setTime` (JavaScript mutates in place; the model returns
the updated date). -/
def setTime (t : JSDate) (v : Int) : JSDate := { t with ms := v }

/-- Days since the epoch of the civil day containing `t` (floored). -/
def days (t : JSDate) : Int := t.ms / msPerDay

/-- Milliseconds elapsed within the civil day containing `t`. -/
def msOfDay (t : JSDate) : Int := t.ms % msPerDay

/-- `Date.prototype.getFullYear` (local time). -/
def getFullYear (t : JSDate) : Int := (civilFromDays (days t)).1

/-- `Date.prototype.getMonth` (local time, 0-based). -/
def getMonth (t : JSDate) : Int := (civilFromDays (days t)).2.1 - 1

/-- `Date.prototype.getDate` (local time, day of month, 1-based). -/
def getDate (t : JSDate) : Int := (civilFromDays (days t)).2.2

/-- `Date.prototype.setFullYear`: keep month, day and time of day, replace
the year, normalising any overflow. -/
def setFullYear (t : JSDate) (y : Int) : JSDate :=
  { t with ms := daysFromCivil y (getMonth t) (getDate t) * msPerDay + msOfDay t }

/-- `Date.prototype.setMonth`: keep year, day and time of day, replace the
0-based month, normalising any overflow into the year. -/
def setMonth (t : JSDate) (m : Int) : JSDate :=
  { t with ms := daysFromCivil (getFullYear t) m (getDate t) * msPerDay + msOfDay t }

/-- `Date.prototype.setDate`: keep year, month and time of day, replace the
day of the month, normalising any overflow into the month. -/
def setDate (t : JSDate) (d : Int) : JSDate :=
  { t with ms := daysFromCivil (getFullYear t) (getMonth t) d * msPerDay + msOfDay t }

end JSDate

namespace DateHelper

/-- `DateHelper.dateAdd` from `src/helpers/DateHelper.ts`.  The source takes
a date string and parses it with `new Date(date)`; the model starts from the
parsed `JSDate`.  `DateInterval` is a string enum whose members are the
interval names, so the interval argument is a `String` and the `switch`
falls through to `undefined` (here `none`) on any other string. -/
def dateAdd (date : JSDate) (interval : String) (units : Int) : Option JSDate :=
  let ret := date
  match interval with
  | "year" => some (ret.setFullYear (ret.getFullYear + units))
  | "quarter" => some (ret.setMonth (ret.getMonth + 3 * units))
  | "month" => some (ret.setMonth (ret.getMonth + units))
  | "week" => some (ret.setDate (ret.getDate + 7 * units))
  | "day" => some (ret.setDate (ret.getDate + units))
  | "hour" => some (ret.setTime (ret.getTime + units * 3600000))
  | "minute" => some (ret.setTime (ret.getTime + units * 60000))
  | "second" => some (ret.setTime (ret.getTime + units * 1000))
  | _ => none

end DateHelper

/-- The record persisted for one cache key, the parsed form of the JSON
document `JSON.stringify` produces in `createPersistable` (interface
`IStoreObject` in the source).  The `expiration` field is a `Date`,
serialized as an ISO string and recovered by `new Date(...)` in `get`;
the model keeps it as the underlying timestamp.  JSON
serialization of a serializable payload round-trips, so the object store is
modelled as holding these records directly. -/
structure IStoreObject (α : Type) where
  value : α
  expiration : Int
  deriving Repr, DecidableEq

/-- The contents of the single object store: an association of cache keys
to persisted records (most recent write first). -/
def Store (α : Type) : Type := List (String × IStoreObject α)

/-- Look a key up in the object store (the result of `store.get(key)`:
`none` models an `undefined` result). -/
def Store.find {α : Type} (s : Store α) (k : String) : Option (IStoreObject α) :=
  List.lookup k s

/-- Remove a key from the object store (the effect of `store.delete(key)`). -/
def Store.erase {α : Type} (s : Store α) (k : String) : Store α :=
  List.filter (fun p => p.1 ≠ k) s

/-- Overwrite a key in the object store (the effect of
`store.put(record, key)`). -/
def Store.write {α : Type} (s : Store α) (k : String) (rec : IStoreObject α) : Store α :=
  (k, rec) :: Store.erase s k

/-- The state of a `CacheService` instance: the constructor arguments and
the `db` field, which is `null` (`none`) until `init` succeeds and
afterwards holds the open connection, modelled by the contents of the one
object store "CacheStore". -/
structure CacheService (α : Type) where
  dbName : String
  dbVersion : Int
  verbose : Bool
  db : Option (Store α)

/-- The outcome the storage engine reports for one issued request:
`none` means the request's `onsuccess` callback fires, `some err` means
`onerror` fires with error text `err`. -/
def EngineOutcome : Type := Option String

/-- One request issued to the storage engine, recorded so that theorems can
speak about which side effects an operation performs. -/
inductive Req : Type
  | openDB : Req
  | getReq : String → Req
  | putReq : String → Req
  | deleteReq : String → Req
  | clearReq : Req
  deriving Repr, DecidableEq

/-- The settled value of one asynchronous operation together with the new
service state, the console output and the storage requests issued.
JavaScript promises settle once, so `result` is the first `resolve`/`reject`
the handler reaches. -/
structure OpOut (ρ : Type) (α : Type) : Type where
  result : ρ
  svc : CacheService α
  logs : List String
  reqs : List Req

namespace CacheService

/-- `CacheService.log`: writes to the console only when the service was
constructed with verbose logging. -/
def log {α : Type} (svc : CacheService α) (message : String) : List String :=
  if svc.verbose then [message] else []

/-- What the environment does when `init` actually opens the database. -/
inductive OpenOutcome (α : Type) : Type
  /-- the open request's `onerror` callback fires. -/
  | failure : OpenOutcome α
  /-- no version change: `onsuccess` fires and the connection exposes the
  already-existing store contents. -/
  | success : Store α → OpenOutcome α
  /-- a version change: `onupgradeneeded` fires first (with the old and new
  version numbers, and the contents of a prior version's store if one
  exists), then `onsuccess`. -/
  | upgrade : Int → Int → Option (Store α) → OpenOutcome α

/-- `CacheService.init`: returns `true` at once when a connection is already
cached; otherwise issues `indexedDB.open`.  On upgrade the handler deletes a
pre-existing "CacheStore" (logging the old version) and creates a fresh
empty one (logging the new version).  `onerror` rejects with `false`
(`reject.bind(null, false)` in the source). -/
def init {α : Type} (svc : CacheService α) (env : OpenOutcome α) :
    OpOut (Except Bool Bool) α :=
  match svc.db with
  | some _ => ⟨Except.ok true, svc, [], []⟩
  | none =>
    match env with
    | OpenOutcome.failure => ⟨Except.error false, svc, [], [Req.openDB]⟩
    | OpenOutcome.success existing =>
        ⟨Except.ok true, { svc with db := some existing }, [], [Req.openDB]⟩
    | OpenOutcome.upgrade oldVersion newVersion existing =>
        let clearLogs :=
          match existing with
          | some _ => svc.log s!"Clearing out version {oldVersion} cache"
          | none => []
        ⟨Except.ok true, { svc with db := some [] },
          clearLogs ++ svc.log s!"Creating version {newVersion} cache",
          [Req.openDB]⟩

/-- `CacheService.delete`: rejects when no connection exists, otherwise
issues a delete request; `onerror` logs and rejects, `onsuccess` logs (the
source reuses the "Successfully stored" message here) and resolves. -/
def delete {α : Type} (svc : CacheService α) (cacheKey : String)
    (eng : EngineOutcome) : OpOut (Except String Unit) α :=
  match svc.db with
  | none => ⟨Except.error "Database doesn't exist.", svc, [], []⟩
  | some store =>
    match eng with
    | some err =>
        ⟨Except.error s!"Failed to delete cache: {err}", svc,
          svc.log s!"Failed to delete cache: {err}", [Req.deleteReq cacheKey]⟩
    | none =>
        ⟨Except.ok (), { svc with db := some (store.erase cacheKey) },
          svc.log s!"Successfully stored {cacheKey} cache data",
          [Req.deleteReq cacheKey]⟩

/-- `CacheService.get`: rejects when no connection exists; otherwise issues
a get request.  `onerror` rejects with a fixed message.  On success with no
record, rejects with "Nothing found".  On success with a record whose
expiration is not past, resolves with the deserialized value.  On a record
whose `expiration <= now`, calls `this.delete(cacheKey)` (fire and forget —
`delEng` is the outcome the engine reports for that nested request) and
resolves with `undefined`; the subsequent `resolve(storeObj.value)` in the
source is a no-op because the promise has already settled. -/
def get {α : Type} (svc : CacheService α) (now : Int) (cacheKey : String)
    (reqOk : Bool) (delEng : EngineOutcome) : OpOut (Except String (Option α)) α :=
  match svc.db with
  | none => ⟨Except.error "Database doesn't exist.", svc, [], []⟩
  | some store =>
    if reqOk then
      match store.find cacheKey with
      | some storeObj =>
          if storeObj.expiration ≤ now then
            let del := svc.delete cacheKey delEng
            ⟨Except.ok none, del.svc, del.logs, Req.getReq cacheKey :: del.reqs⟩
          else
            ⟨Except.ok (some storeObj.value), svc, [], [Req.getReq cacheKey]⟩
      | none =>
          ⟨Except.error s!"Nothing found for {cacheKey}", svc, [],
            [Req.getReq cacheKey]⟩
    else
      ⟨Except.error s!"Error getting cached data {cacheKey}", svc, [],
        [Req.getReq cacheKey]⟩

/-- `CacheService.createPersistable`: when `expire` is omitted it defaults
to one hour past the current time; the record is then JSON-serialized for
storage (modelled as the record itself). -/
def createPersistable {α : Type} (now : Int) (data : α) (expire : Option Int) :
    IStoreObject α :=
  match expire with
  | none => { value := data, expiration := now + 1 * 3600000 }
  | some e => { value := data, expiration := e }

/-- `CacheService.put`: rejects when no connection exists; otherwise issues
a put request with the persistable record.  `onerror` logs and resolves
`false`; `onsuccess` logs and resolves `true`.  On engine failure nothing
is written. -/
def put {α : Type} (svc : CacheService α) (now : Int) (cacheKey : String)
    (data : α) (expire : Option Int) (eng : EngineOutcome) :
    OpOut (Except String Bool) α :=
  match svc.db with
  | none => ⟨Except.error "Database doesn't exist.", svc, [], []⟩
  | some store =>
    match eng with
    | some err =>
        ⟨Except.ok false, svc, svc.log s!"Failed to store data cache: {err}",
          [Req.putReq cacheKey]⟩
    | none =>
        ⟨Except.ok true,
          { svc with db := some (store.write cacheKey (createPersistable now data expire)) },
          svc.log s!"Successfully stored {cacheKey} cache data",
          [Req.putReq cacheKey]⟩

/-- `CacheService.flush`: rejects when no connection exists; otherwise
issues a clear request; `onerror` logs and rejects, `onsuccess` logs and
resolves with the store emptied. -/
def flush {α : Type} (svc : CacheService α) (eng : EngineOutcome) :
    OpOut (Except String Unit) α :=
  match svc.db with
  | none => ⟨Except.error "Database doesn't exist.", svc, [], []⟩
  | some _ =>
    match eng with
    | some err =>
        ⟨Except.error s!"Failed to clear cache: {err}", svc,
          svc.log s!"Failed to clear cache: {err}", [Req.clearReq]⟩
    | none =>
        ⟨Except.ok (), { svc with db := some [] },
          svc.log "Successfully cleared cache store", [Req.clearReq]⟩

end CacheService

/- Helper lemmas about the object store. -/

theorem Store.find_write {α : Type} (s : Store α) (k : String) (rec : IStoreObject α) :
    (s.write k rec).find k = some rec := by
  simp [Store.write, Store.find, List.lookup]

theorem Store.find_erase_self {α : Type} (s : Store α) (k : String) :
    (s.erase k).find k = none := by
  induction s with
  | nil => rfl
  | cons p t ih =>
      by_cases h : p.1 = k
      · simpa [Store.erase, List.filter, h] using ih
      · have hk : (k == p.1) = false := by
          simp [Ne.symm h]
        simpa [Store.erase, Store.find, List.lookup, List.filter, h, hk] using ih

/- Helper lemmas about the civil calendar: `civilFromDays` followed by
`daysFromCivil` is the identity on day numbers, hence `setDate` moves a date
by exactly the requested number of civil days. -/

namespace JSDate

set_option maxRecDepth 2000 in
theorem checkA_nat : ∀ n : Nat, n < 399 →
    yearAdj (yoeStart ((n : Int) + 1) - 1) ≤ 365 * ((n : Int) + 1) - 1 := by decide

set_option maxRecDepth 2000 in
theorem checkB_nat : ∀ n : Nat, n < 399 →
    365 * ((n : Int) + 1) ≤ yearAdj (yoeStart ((n : Int) + 1)) := by decide

theorem yearAdj_step (n : Int) (h0 : 0 ≤ n) (h1 : n + 1 ≤ 146096) :
    yearAdj n ≤ yearAdj (n + 1) := by
  unfold yearAdj
  omega

theorem yearAdj_mono (a b : Int) (h0 : 0 ≤ a) (hab : a ≤ b) (hb : b ≤ 146096) :
    yearAdj a ≤ yearAdj b := by
  obtain ⟨k, rfl⟩ : ∃ k : Nat, b = a + k := ⟨(b - a).toNat, by omega⟩
  clear hab
  induction k with
  | zero => simp
  | succ k ih =>
      have hk : a + (k : Int) + 1 ≤ 146096 := by push_cast at hb ⊢; omega
      have h1 := ih (by omega)
      have h2 := yearAdj_step (a + (k : Int)) (by omega) hk
      have he : a + ((k : Nat) + 1 : Nat) = a + (k : Int) + 1 := by push_cast; ring
      rw [he]
      exact le_trans h1 h2

theorem yoe_bounds (doe yoe : Int) (h0 : 0 ≤ doe) (h1 : doe ≤ 146096)
    (hy : yoe = yearAdj doe / 365) :
    0 ≤ yoe ∧ yoe ≤ 399 ∧ yoeStart yoe ≤ doe ∧ doe ≤ yoeStart yoe + 365 := by
  have hg0 : 0 ≤ yearAdj doe := by unfold yearAdj; omega
  have hup : yearAdj doe ≤ yearAdj 146096 := yearAdj_mono doe 146096 h0 h1 le_rfl
  have hval : yearAdj 146096 = 145999 := by decide
  have hdiv : 365 * yoe ≤ yearAdj doe ∧ yearAdj doe < 365 * (yoe + 1) := by omega
  have hyoe0 : 0 ≤ yoe := by omega
  have hyoe399 : yoe ≤ 399 := by omega
  refine ⟨hyoe0, hyoe399, ?_, ?_⟩
  · by_cases hz : yoe = 0
    · subst hz; unfold yoeStart; omega
    · by_contra hcon
      push_neg at hcon
      have hcast : ((yoe - 1).toNat : Int) + 1 = yoe := by omega
      have hA := checkA_nat (yoe - 1).toNat (by omega)
      rw [hcast] at hA
      have hS399 : yoeStart yoe - 1 ≤ 146096 := by unfold yoeStart; omega
      have hmono := yearAdj_mono doe (yoeStart yoe - 1) h0 (by omega) hS399
      omega
  · by_contra hcon
    push_neg at hcon
    by_cases hz : yoe = 399
    · have : yoeStart 399 = 145731 := by decide
      subst hz; omega
    · have hcast : ((yoe.toNat : Int)) + 1 = yoe + 1 := by omega
      have hB := checkB_nat yoe.toNat (by omega)
      rw [hcast] at hB
      have hfb : yoeStart (yoe + 1) ≤ yoeStart yoe + 366 := by unfold yoeStart; omega
      have hfb0 : 0 ≤ yoeStart (yoe + 1) := by unfold yoeStart; omega
      have hmono := yearAdj_mono (yoeStart (yoe + 1)) doe hfb0 (by omega) h1
      omega

theorem daysFromCivil_valid (y m d : Int) (h1 : 1 ≤ m) (h2 : m ≤ 12) :
    daysFromCivil y (m - 1) d =
      (if m ≤ 2 then y - 1 else y) / 400 * 146097
        + ((if m ≤ 2 then y - 1 else y) - (if m ≤ 2 then y - 1 else y) / 400 * 400) * 365
        + ((if m ≤ 2 then y - 1 else y) - (if m ≤ 2 then y - 1 else y) / 400 * 400) / 4
        - ((if m ≤ 2 then y - 1 else y) - (if m ≤ 2 then y - 1 else y) / 400 * 400) / 100
        + (153 * (if m > 2 then m - 3 else m + 9) + 2) / 5 + d - 1 - 719468 := by
  have ha : (m - 1) / 12 = 0 := by omega
  have hb : (m - 1) % 12 = m - 1 := by omega
  simp only [daysFromCivil, ha, hb]
  split_ifs <;> omega

theorem civil_inverse_components (z era doe yoe doy mp d m Y : Int)
    (hera : era = (z + 719468) / 146097)
    (hdoe : doe = z + 719468 - era * 146097)
    (hyoe : yoe = (doe - doe / 1460 + doe / 36524 - doe / 146096) / 365)
    (hdoy : doy = doe - (365 * yoe + yoe / 4 - yoe / 100))
    (hmp : mp = (5 * doy + 2) / 153)
    (hd : d = doy - (153 * mp + 2) / 5 + 1)
    (hm : m = if mp < 10 then mp + 3 else mp - 9)
    (hY : Y = if m ≤ 2 then yoe + era * 400 + 1 else yoe + era * 400) :
    daysFromCivil Y (m - 1) d = z := by
  have h0 : 0 ≤ doe := by omega
  have h1 : doe ≤ 146096 := by omega
  have hb := yoe_bounds doe yoe h0 h1 (by unfold yearAdj; exact hyoe)
  unfold yoeStart at hb
  have hmpb : 0 ≤ mp ∧ mp ≤ 11 := by omega
  by_cases hmp10 : mp < 10
  · have hm3 : m = mp + 3 := by rw [hm, if_pos hmp10]
    have hc : ¬ (m ≤ 2) := by omega
    have hY2 : Y = yoe + era * 400 := by rw [hY, if_neg hc]
    rw [daysFromCivil_valid Y m d (by omega) (by omega), if_neg hc,
      if_pos (show m > 2 by omega), hY2]
    have e1 : (yoe + era * 400) / 400 = era := by omega
    rw [e1]
    have e2 : yoe + era * 400 - era * 400 = yoe := by ring
    rw [e2]
    have e3 : m - 3 = mp := by omega
    rw [e3]
    omega
  · have hm9 : m = mp - 9 := by rw [hm, if_neg hmp10]
    have hc : m ≤ 2 := by omega
    have hY2 : Y = yoe + era * 400 + 1 := by rw [hY, if_pos hc]
    rw [daysFromCivil_valid Y m d (by omega) (by omega), if_pos hc,
      if_neg (show ¬ (m > 2) by omega), hY2]
    have e0 : yoe + era * 400 + 1 - 1 = yoe + era * 400 := by ring
    rw [e0]
    have e1 : (yoe + era * 400) / 400 = era := by omega
    rw [e1]
    have e2 : yoe + era * 400 - era * 400 = yoe := by ring
    rw [e2]
    have e3 : m + 9 = mp := by omega
    rw [e3]
    omega

theorem daysFromCivil_civilFromDays (z : Int) :
    daysFromCivil (civilFromDays z).1 ((civilFromDays z).2.1 - 1) (civilFromDays z).2.2
      = z := by
  simp only [civilFromDays]
  exact civil_inverse_components z _ _ _ _ _ _ _ _
    rfl rfl rfl rfl rfl rfl rfl rfl

theorem daysFromCivil_add_days (y m d u : Int) :
    daysFromCivil y m (d + u) = daysFromCivil y m d + u := by
  unfold daysFromCivil
  ring

theorem setDate_getDate_add (t : JSDate) (u : Int) :
    t.setDate (t.getDate + u) = JSDate.mk (t.ms + u * 86400000) := by
  simp only [setDate, getDate, getFullYear, getMonth, days, msOfDay, msPerDay]
  rw [daysFromCivil_add_days, daysFromCivil_civilFromDays]
  have : (t.ms / 86400000 + u) * 86400000 + t.ms % 86400000 = t.ms + u * 86400000 := by
    omega
  rw [this]

end JSDate

/-- C1: for every stored entry whose expiration is less than or equal to
the current time, `get` on that key deletes the entry from the store as a
side effect and settles exactly once, with an absent result (never with the
stored value), whatever the engine later reports for the fire-and-forget
delete; the stored value is returned (with the store untouched) only while
`now < expiration`. -/
theorem get_expiration_policy {α : Type} (svc : CacheService α) (store : Store α)
    (storeObj : IStoreObject α) (now : Int) (k : String) (delEng : EngineOutcome)
    (hdb : svc.db = some store) (hfind : store.find k = some storeObj) :
    (storeObj.expiration ≤ now →
      (svc.get now k true delEng).result = Except.ok none ∧
      (svc.get now k true none).svc.db = some (store.erase k) ∧
      ((svc.get now k true none).svc.db.getD []).find k = none) ∧
    (now < storeObj.expiration →
      (svc.get now k true delEng).result = Except.ok (some storeObj.value) ∧
      (svc.get now k true delEng).svc = svc) := by
  constructor
  · intro hexp
    refine ⟨?_, ?_, ?_⟩
    · cases delEng with
      | none => simp [CacheService.get, CacheService.delete, hdb, hfind, hexp]
      | some err => simp [CacheService.get, CacheService.delete, hdb, hfind, hexp]
    · simp [CacheService.get, CacheService.delete, hdb, hfind, hexp]
    · simp [CacheService.get, CacheService.delete, hdb, hfind, hexp,
        Store.find_erase_self]
  · intro hexp
    have hnot : ¬ storeObj.expiration ≤ now := not_le.mpr hexp
    constructor
    · simp [CacheService.get, hdb, hfind, hnot]
    · simp [CacheService.get, hdb, hfind, hnot]

/-- C1 witness: a concrete service holding one entry with expiration 100;
read at time 100 the entry is dropped and the result is absent, read at
time 99 the stored value 7 comes back. -/
theorem get_expiration_policy_witness :
    ((CacheService.mk "EventCache" 1 false
        (some [("k", IStoreObject.mk (7 : Int) 100)])).get 100 "k" true none).result
      = Except.ok none ∧
    ((CacheService.mk "EventCache" 1 false
        (some [("k", IStoreObject.mk (7 : Int) 100)])).get 99 "k" true none).result
      = Except.ok (some 7) := by
  constructor
  · exact ((get_expiration_policy
      (CacheService.mk "EventCache" 1 false (some [("k", IStoreObject.mk (7 : Int) 100)]))
      [("k", IStoreObject.mk (7 : Int) 100)] (IStoreObject.mk (7 : Int) 100)
      100 "k" none rfl (by decide)).1 (by decide)).1
  · exact ((get_expiration_policy
      (CacheService.mk "EventCache" 1 false (some [("k", IStoreObject.mk (7 : Int) 100)]))
      [("k", IStoreObject.mk (7 : Int) 100)] (IStoreObject.mk (7 : Int) 100)
      99 "k" none rfl (by decide)).2 (by decide)).1

/-- C2: evaluation of the code at the claim's scenario.  `CacheService.get`
takes no `throwOnMiss` parameter (its only parameters beside the embedding's
clock and engine outcomes are the cache key), so a miss always rejects with
the NotFound message, even in the call the README writes as
`get(key, false)` — a JavaScript call site simply ignores the extra
argument and reaches this same handler.  On a service with an established
connection and an empty store, reading the absent key "missing" rejects. -/
theorem get_miss_always_rejects :
    ((CacheService.mk "EventCache" 1 false (some ([] : Store Int))).get
        0 "missing" true none).result
      = Except.error "Nothing found for missing" := by
  rfl

/-- C3: after a successful `put` of value `v` under key `k` with an
expiration still in the future at read time, `get` on `k` resolves with
exactly `v`: the value round-trips through the serialized record. -/
theorem put_get_roundtrip {α : Type} (svc : CacheService α) (store : Store α)
    (now now2 exp : Int) (k : String) (v : α) (delEng : EngineOutcome)
    (hdb : svc.db = some store) (hfut : now2 < exp) :
    (svc.put now k v (some exp) none).result = Except.ok true ∧
    (((svc.put now k v (some exp) none).svc).get now2 k true delEng).result
      = Except.ok (some v) := by
  have hnot : ¬ (exp : Int) ≤ now2 := not_le.mpr hfut
  constructor
  · simp [CacheService.put, hdb]
  · simp [CacheService.put, CacheService.get, CacheService.createPersistable,
      hdb, Store.find_write, hnot]

/-- C3 witness: putting 42 under "A" at time 0 with expiration 60000 and
reading it back at time 59999 yields 42. -/
theorem put_get_roundtrip_witness :
    (((CacheService.mk "EventCache" 1 false (some ([] : Store Int))).put
        0 "A" 42 (some 60000) none).svc.get 59999 "A" true none).result
      = Except.ok (some 42) :=
  (put_get_roundtrip
    (CacheService.mk "EventCache" 1 false (some ([] : Store Int)))
    [] 0 59999 60000 "A" 42 none rfl (by decide)).2

/-- C4: `put` with the expiration argument omitted stores the entry with
expiration equal to the clock at the time of the call plus one hour
(3600000 milliseconds). -/
theorem put_default_expiration {α : Type} (svc : CacheService α) (store : Store α)
    (now : Int) (k : String) (v : α)
    (hdb : svc.db = some store) :
    (svc.put now k v none none).result = Except.ok true ∧
    ((svc.put now k v none none).svc).db
      = some (store.write k (IStoreObject.mk v (now + 3600000))) := by
  constructor
  · simp [CacheService.put, hdb]
  · simp [CacheService.put, CacheService.createPersistable, hdb]

/-- C4 witness: at time 5, a `put` without expiration stores expiration
3600005. -/
theorem put_default_expiration_witness :
    (((CacheService.mk "EventCache" 1 false (some ([] : Store Int))).put
        5 "A" 42 none none).svc).db
      = some [("A", IStoreObject.mk (42 : Int) 3600005)] :=
  (put_default_expiration
    (CacheService.mk "EventCache" 1 false (some ([] : Store Int)))
    [] 5 "A" 42 rfl).2

/-- C5: with an established connection, `put` always resolves — `true` when
the storage engine reports success, `false` when it reports a write error —
and it rejects exactly when no connection has been established. -/
theorem put_resolves_bool_on_storage_outcome {α : Type} (svc : CacheService α)
    (now : Int) (k : String) (v : α) (expire : Option Int) (eng : EngineOutcome) :
    (svc.db ≠ none →
      (svc.put now k v expire eng).result = Except.ok (Option.isNone eng)) ∧
    (svc.db = none →
      (svc.put now k v expire eng).result = Except.error "Database doesn't exist.") := by
  constructor
  · intro h
    match hdb : svc.db with
    | none => exact absurd hdb h
    | some store =>
        cases eng with
        | none => simp [CacheService.put, hdb]
        | some err => simp [CacheService.put, hdb]
  · intro h
    simp [CacheService.put, h]

/-- C5 witness: on a connected service a failing write resolves `false` and
a successful write resolves `true`; on an unconnected one `put` rejects. -/
theorem put_resolves_bool_on_storage_outcome_witness :
    ((CacheService.mk "EventCache" 1 false (some ([] : Store Int))).put
        0 "A" 42 none (some "QuotaExceededError")).result = Except.ok false ∧
    ((CacheService.mk "EventCache" 1 false (some ([] : Store Int))).put
        0 "A" 42 none none).result = Except.ok true ∧
    ((CacheService.mk "EventCache" 1 false (none : Option (Store Int))).put
        0 "A" 42 none none).result = Except.error "Database doesn't exist." := by
  refine ⟨?_, ?_, ?_⟩
  · exact (put_resolves_bool_on_storage_outcome
      (CacheService.mk "EventCache" 1 false (some ([] : Store Int)))
      0 "A" 42 none (some "QuotaExceededError")).1 (by simp)
  · exact (put_resolves_bool_on_storage_outcome
      (CacheService.mk "EventCache" 1 false (some ([] : Store Int)))
      0 "A" 42 none none).1 (by simp)
  · exact (put_resolves_bool_on_storage_outcome
      (CacheService.mk "EventCache" 1 false (none : Option (Store Int)))
      0 "A" 42 none none).2 rfl

/-- C6: every accessor operation called while no connection has been
established rejects with the NotInitialized message, leaves the service
state (hence the store) unchanged, produces no log line, and issues no
request to the storage engine. -/
theorem accessors_require_connection {α : Type} (svc : CacheService α)
    (now : Int) (k : String) (v : α) (expire : Option Int) (reqOk : Bool)
    (eng delEng : EngineOutcome) (h : svc.db = none) :
    svc.get now k reqOk delEng
      = OpOut.mk (Except.error "Database doesn't exist.") svc [] [] ∧
    svc.put now k v expire eng
      = OpOut.mk (Except.error "Database doesn't exist.") svc [] [] ∧
    svc.delete k eng
      = OpOut.mk (Except.error "Database doesn't exist.") svc [] [] ∧
    svc.flush eng
      = OpOut.mk (Except.error "Database doesn't exist.") svc [] [] := by
  refine ⟨?_, ?_, ?_, ?_⟩ <;>
    simp [CacheService.get, CacheService.put, CacheService.delete,
      CacheService.flush, h]

/-- C6 witness: on a freshly constructed service (db still `null`), all four
accessors reject with the NotInitialized message. -/
theorem accessors_require_connection_witness :
    ((CacheService.mk "EventCache" 1 false (none : Option (Store Int))).get
        0 "k" true none).result = Except.error "Database doesn't exist." ∧
    ((CacheService.mk "EventCache" 1 false (none : Option (Store Int))).flush
        none).result = Except.error "Database doesn't exist." := by
  have h := accessors_require_connection
    (CacheService.mk "EventCache" 1 false (none : Option (Store Int)))
    0 "k" (42 : Int) none true none none rfl
  exact ⟨by rw [h.1], by rw [h.2.2.2]⟩

/-- C7: once a connection is cached, every further `init` resolves `true`
with no state change, no log line and no open request to the engine; a
first `init` on an unconnected service does open the database, and on a
schema upgrade it deletes the prior store and re-creates the single object
store empty. -/
theorem init_idempotent {α : Type} (svc svc0 : CacheService α)
    (store oldStore : Store α) (env : CacheService.OpenOutcome α) (oldV newV : Int)
    (hdb : svc.db = some store) (h0 : svc0.db = none) :
    svc.init env = OpOut.mk (Except.ok true) svc [] [] ∧
    (svc0.init (CacheService.OpenOutcome.upgrade oldV newV (some oldStore))).result
      = Except.ok true ∧
    (svc0.init (CacheService.OpenOutcome.upgrade oldV newV (some oldStore))).svc.db
      = some ([] : Store α) ∧
    (svc0.init (CacheService.OpenOutcome.upgrade oldV newV (some oldStore))).reqs
      = [Req.openDB] := by
  refine ⟨?_, ?_, ?_, ?_⟩ <;>
    simp [CacheService.init, hdb, h0]

/-- C7 witness: a service whose connection is already cached answers a
second `init` (here one whose environment would upgrade) with `true`,
unchanged state and no engine request; a fresh service's first `init` with
an upgrade pending recreates the store empty. -/
theorem init_idempotent_witness :
    ((CacheService.mk "EventCache" 2 false
        (some [("k", IStoreObject.mk (7 : Int) 100)])).init
        (CacheService.OpenOutcome.upgrade 1 2 (some [])))
      = OpOut.mk (Except.ok true)
          (CacheService.mk "EventCache" 2 false
            (some [("k", IStoreObject.mk (7 : Int) 100)])) [] [] ∧
    ((CacheService.mk "EventCache" 2 false (none : Option (Store Int))).init
        (CacheService.OpenOutcome.upgrade 1 2 (some [("k", IStoreObject.mk (7 : Int) 100)]))).svc.db
      = some ([] : Store Int) := by
  have h := init_idempotent
    (CacheService.mk "EventCache" 2 false (some [("k", IStoreObject.mk (7 : Int) 100)]))
    (CacheService.mk "EventCache" 2 false (none : Option (Store Int)))
    [("k", IStoreObject.mk (7 : Int) 100)] [("k", IStoreObject.mk (7 : Int) 100)]
    (CacheService.OpenOutcome.upgrade 1 2 (some []))
    1 2 rfl rfl
  exact ⟨h.1, h.2.2.1⟩

/-- C8: for every base date and integer count, `dateAdd` with unit "hour",
"minute" or "second" shifts the timestamp by exactly count × 3600000,
60000 and 1000 milliseconds; with "day" or "week" it shifts by exactly
count (respectively 7 × count) civil days, that is count × 86400000
(respectively 7 × count × 86400000) milliseconds in this DST-free local-time
model; with "year", "quarter" or "month" it shifts the local-time calendar
year (respectively 0-based month index) of the date by count (respectively
3 × count and count) through the normalising calendar setters, keeping day
of month and time of day; and `dateAdd` with any unrecognized unit returns
an empty result. -/
theorem dateAdd_spec (t : JSDate) (u : Int) (s : String)
    (hs : s ≠ "year" ∧ s ≠ "quarter" ∧ s ≠ "month" ∧ s ≠ "week" ∧ s ≠ "day" ∧
          s ≠ "hour" ∧ s ≠ "minute" ∧ s ≠ "second") :
    DateHelper.dateAdd t "hour" u = some (JSDate.mk (t.ms + u * 3600000)) ∧
    DateHelper.dateAdd t "minute" u = some (JSDate.mk (t.ms + u * 60000)) ∧
    DateHelper.dateAdd t "second" u = some (JSDate.mk (t.ms + u * 1000)) ∧
    DateHelper.dateAdd t "day" u = some (JSDate.mk (t.ms + u * 86400000)) ∧
    DateHelper.dateAdd t "week" u = some (JSDate.mk (t.ms + 7 * u * 86400000)) ∧
    DateHelper.dateAdd t "year" u = some (t.setFullYear (t.getFullYear + u)) ∧
    DateHelper.dateAdd t "quarter" u = some (t.setMonth (t.getMonth + 3 * u)) ∧
    DateHelper.dateAdd t "month" u = some (t.setMonth (t.getMonth + u)) ∧
    DateHelper.dateAdd t s u = none := by
  obtain ⟨h1, h2, h3, h4, h5, h6, h7, h8⟩ := hs
  have hday : DateHelper.dateAdd t "day" u = some (t.setDate (t.getDate + u)) := rfl
  have hweek : DateHelper.dateAdd t "week" u = some (t.setDate (t.getDate + 7 * u)) := rfl
  refine ⟨rfl, rfl, rfl, ?_, ?_, rfl, rfl, rfl, ?_⟩
  · rw [hday, JSDate.setDate_getDate_add]
  · rw [hweek, JSDate.setDate_getDate_add]
  · unfold DateHelper.dateAdd
    split
    · exact absurd rfl h1
    · exact absurd rfl h2
    · exact absurd rfl h3
    · exact absurd rfl h4
    · exact absurd rfl h5
    · exact absurd rfl h6
    · exact absurd rfl h7
    · exact absurd rfl h8
    · rfl

/-- C8 witness: at the epoch, adding 2 of the unrecognized unit "fortnight"
yields no result, adding 2 hours yields exactly 7200000 ms and adding
2 days yields exactly 172800000 ms. -/
theorem dateAdd_spec_witness :
    DateHelper.dateAdd (JSDate.mk 0) "fortnight" 2 = none ∧
    DateHelper.dateAdd (JSDate.mk 0) "hour" 2 = some (JSDate.mk 7200000) ∧
    DateHelper.dateAdd (JSDate.mk 0) "day" 2 = some (JSDate.mk 172800000) := by
  have h := dateAdd_spec (JSDate.mk 0) 2 "fortnight" (by decide)
  exact ⟨h.2.2.2.2.2.2.2.2, by simpa using h.1, by simpa using h.2.2.2.1⟩

/-- C9: the verbose-logging flag does not influence behaviour.  Two services
identical except for the flag produce, for every operation and every input,
store state and engine outcome, the same settled result, the same resulting
store contents and the same storage requests; only the console output can
differ. -/
theorem verbose_only_gates_logging {α : Type} (dbName : String) (dbVersion : Int)
    (v1 v2 : Bool) (db : Option (Store α)) (env : CacheService.OpenOutcome α)
    (now : Int) (k : String) (x : α) (expire : Option Int) (reqOk : Bool)
    (eng delEng : EngineOutcome) :
    let s1 : CacheService α := CacheService.mk dbName dbVersion v1 db
    let s2 : CacheService α := CacheService.mk dbName dbVersion v2 db
    ((s1.init env).result = (s2.init env).result ∧
      (s1.init env).svc.db = (s2.init env).svc.db ∧
      (s1.init env).reqs = (s2.init env).reqs) ∧
    ((s1.get now k reqOk delEng).result = (s2.get now k reqOk delEng).result ∧
      (s1.get now k reqOk delEng).svc.db = (s2.get now k reqOk delEng).svc.db ∧
      (s1.get now k reqOk delEng).reqs = (s2.get now k reqOk delEng).reqs) ∧
    ((s1.put now k x expire eng).result = (s2.put now k x expire eng).result ∧
      (s1.put now k x expire eng).svc.db = (s2.put now k x expire eng).svc.db ∧
      (s1.put now k x expire eng).reqs = (s2.put now k x expire eng).reqs) ∧
    ((s1.delete k eng).result = (s2.delete k eng).result ∧
      (s1.delete k eng).svc.db = (s2.delete k eng).svc.db ∧
      (s1.delete k eng).reqs = (s2.delete k eng).reqs) ∧
    ((s1.flush eng).result = (s2.flush eng).result ∧
      (s1.flush eng).svc.db = (s2.flush eng).svc.db ∧
      (s1.flush eng).reqs = (s2.flush eng).reqs) := by
  intro s1 s2
  refine ⟨?_, ?_, ?_, ?_, ?_⟩
  · cases db <;> cases env <;> simp [CacheService.init]
  · cases db with
    | none => simp [CacheService.get]
    | some store =>
        cases reqOk with
        | false => simp [CacheService.get]
        | true =>
            cases hf : store.find k with
            | none => simp [CacheService.get, hf]
            | some r =>
                by_cases hexp : r.expiration ≤ now
                · cases delEng <;>
                    simp [CacheService.get, CacheService.delete, hf, hexp]
                · simp [CacheService.get, hf, hexp]
  · cases db <;> cases eng <;> simp [CacheService.put]
  · cases db <;> cases eng <;> simp [CacheService.delete]
  · cases db <;> cases eng <;> simp [CacheService.flush]

/-- C10: `put` performs no validation of an explicitly supplied expiration:
with a connection established and the engine reporting success, a `put`
whose expiration is already at or before the read-time clock still resolves
`true` and stores the entry, and the following `get` on that key takes the
expired path — it resolves with an absent result and deletes the entry. -/
theorem put_no_expiration_validation {α : Type} (svc : CacheService α)
    (store : Store α) (now now2 exp : Int) (k : String) (v : α)
    (hdb : svc.db = some store) (hpast : exp ≤ now2) :
    (svc.put now k v (some exp) none).result = Except.ok true ∧
    ((svc.put now k v (some exp) none).svc).db
      = some (store.write k (IStoreObject.mk v exp)) ∧
    (((svc.put now k v (some exp) none).svc).get now2 k true none).result
      = Except.ok none ∧
    ((((svc.put now k v (some exp) none).svc).get now2 k true none).svc.db.getD []).find k
      = none := by
  refine ⟨?_, ?_, ?_, ?_⟩
  · simp [CacheService.put, hdb]
  · simp [CacheService.put, CacheService.createPersistable, hdb]
  · simp [CacheService.put, CacheService.get, CacheService.delete,
      CacheService.createPersistable, hdb, Store.find_write, hpast]
  · simp [CacheService.put, CacheService.get, CacheService.delete,
      CacheService.createPersistable, hdb, Store.find_write, hpast,
      Store.find_erase_self]

/-- C10 witness: at time 100, putting 42 under "A" with expiration 100 (not
in the future) succeeds, and an immediate `get` at time 100 resolves absent
with the entry gone. -/
theorem put_no_expiration_validation_witness :
    (((CacheService.mk "EventCache" 1 false (some ([] : Store Int))).put
        100 "A" 42 (some 100) none).result = Except.ok true) ∧
    ((((CacheService.mk "EventCache" 1 false (some ([] : Store Int))).put
        100 "A" 42 (some 100) none).svc.get 100 "A" true none).result
      = Except.ok none) := by
  have h := put_no_expiration_validation
    (CacheService.mk "EventCache" 1 false (some ([] : Store Int)))
    [] 100 100 100 "A" 42 rfl (by decide)
  exact ⟨h.1, h.2.2.1⟩

end ICache
